import Mathlib

/-!
Verification of the IRP engine (src/kernel/io/irp.c) and the SD/MMC driver
core (src/drivers/sd/core/sd.c) against their natural-language specification.

The C sources are shallowly embedded: machine integers become `Nat`, status
codes become the `KSTATUS` inductive, pointers to external collaborators
(controller facade, memory manager, locks) become oracle parameters, and the
C while-loops become fuel-indexed structural recursions.  Every definition is
translated from the corresponding C function and keeps its name.
-/

/-- Status codes surfaced by the modelled code (KSTATUS in the source).
`other` stands for any status not distinguished by the modelled paths; it is
also used as an unreachable-fuel marker in loop embeddings. -/
inductive KSTATUS where
  | success
  | notHandled
  | invalidParameter
  | insufficientResources
  | invalidConfiguration
  | deviceNotConnected
  | noMedia
  | timeout
  | notSupported
  | pathNotFound
  | other (code : Nat)
  deriving DecidableEq

/-- KSUCCESS macro: of the statuses produced by the modelled code, exactly
STATUS_SUCCESS is a success status (all the others are negative in C). -/
def KSUCCESS : KSTATUS → Bool
  | .success => true
  | _ => false

/-- IRP traversal direction (IRP_DIRECTION in the source). -/
inductive IRP_DIRECTION where
  | IrpDown
  | IrpUp
  deriving DecidableEq

/-- The IRP state relevant to the engine, from IRP / IRP_INTERNAL in irp.c.
`Stack` holds the driver (identified by a `Nat`) owning each IRP stack slot;
its length is StackSize.  The four flag booleans are the IRP_* flag bits, and
`Signalled` is the state of the IRP's wait object (ObSignalObject /
ObWaitOnObject). `MinorValid` abstracts `MinorCode != IrpMinorInvalid` and
`HasCompletionRoutine` abstracts `CompletionRoutine != NULL`. -/
structure IRP where
  Direction : IRP_DIRECTION
  Status : KSTATUS
  MinorValid : Bool
  HasCompletionRoutine : Bool
  Stack : List Nat
  StackIndex : Nat
  Active : Bool
  Complete : Bool
  Pending : Bool
  DriverStackComplete : Bool
  Signalled : Bool
  deriving DecidableEq

/-- IoCompleteIrp from irp.c: only when the calling driver owns the current
stack slot, set IRP_COMPLETE, flip the direction up, record the status, and
signal the wait object if the IRP was pending.  When the current slot is out
of range the C code's ASSERTs fire; the model leaves the IRP unchanged. -/
def IoCompleteIrp (Driver : Nat) (Irp : IRP) (StatusCode : KSTATUS) : IRP :=
  match Irp.Stack[Irp.StackIndex]? with
  | none => Irp
  | some owner =>
    if owner = Driver then
      { Irp with
        Complete := true
        Direction := .IrpUp
        Status := StatusCode
        Signalled := if Irp.Pending then true else Irp.Signalled }
    else
      Irp

/-- IoPendIrp from irp.c: only the owner of the current stack slot may set
IRP_PENDING. -/
def IoPendIrp (Driver : Nat) (Irp : IRP) : IRP :=
  match Irp.Stack[Irp.StackIndex]? with
  | none => Irp
  | some owner =>
    if owner = Driver then { Irp with Pending := true } else Irp

/-- IopAdvanceIrpStackLocation from irp.c: the traversal geometry. -/
def IopAdvanceIrpStackLocation (Irp : IRP) : IRP :=
  if Irp.Direction = .IrpDown then
    if Irp.StackIndex + 1 < Irp.Stack.length then
      { Irp with StackIndex := Irp.StackIndex + 1 }
    else
      { Irp with Direction := .IrpUp }
  else
    if Irp.StackIndex = 0 then
      { Irp with DriverStackComplete := true }
    else
      { Irp with StackIndex := Irp.StackIndex - 1 }

/-- IoContinueIrp from irp.c: only the owner of the current stack slot may
continue a pended IRP; the stack location is advanced and the wait object
signalled. -/
def IoContinueIrp (Driver : Nat) (Irp : IRP) : IRP :=
  match Irp.Stack[Irp.StackIndex]? with
  | none => Irp
  | some owner =>
    if owner = Driver then
      { IopAdvanceIrpStackLocation Irp with Signalled := true }
    else
      Irp

/-- What a driver's dispatch routine does when called: nothing, complete the
IRP with a status, or pend the IRP.  This models the legal actions a dispatch
routine can take on the IRP through the engine's interface. -/
inductive DRIVER_RESULT where
  | DoNothing
  | CompleteWith (s : KSTATUS)
  | Pend
  deriving DecidableEq

/-- A driver-stack behaviour: the action taken by the dispatch routine called
at a given stack index and direction. -/
def DRIVER_BEHAVIOR := Nat → IRP_DIRECTION → DRIVER_RESULT

/-- IopCallDriver from irp.c: dispatch to the driver owning the current stack
slot and record the dispatch (index, direction).  The driver's action is
applied through the engine entry points with the owner as the caller. -/
def IopCallDriver (Behavior : DRIVER_BEHAVIOR) (Irp : IRP) :
    IRP × (Nat × IRP_DIRECTION) :=
  let dispatched := (Irp.StackIndex, Irp.Direction)
  let owner := Irp.Stack.getD Irp.StackIndex 0
  match Behavior Irp.StackIndex Irp.Direction with
  | .DoNothing => (Irp, dispatched)
  | .CompleteWith s => (IoCompleteIrp owner Irp s, dispatched)
  | .Pend => (IoPendIrp owner Irp, dispatched)

/-- IopPumpIrpThroughStack from irp.c: while IRP_DRIVER_STACK_COMPLETE is
clear, call the driver at the current slot; stop if it pended the IRP,
otherwise advance the stack location.  Returns the final IRP and the list of
dispatches made.  `fuel` bounds the iterations of the C while-loop. -/
def IopPumpIrpThroughStack (Behavior : DRIVER_BEHAVIOR) :
    Nat → IRP → IRP × List (Nat × IRP_DIRECTION)
  | 0, Irp => (Irp, [])
  | fuel + 1, Irp =>
    if Irp.DriverStackComplete then
      (Irp, [])
    else
      let called := IopCallDriver Behavior Irp
      if called.1.Pending then
        (called.1, [called.2])
      else
        let advanced := IopAdvanceIrpStackLocation called.1
        let rest := IopPumpIrpThroughStack Behavior fuel advanced
        (rest.1, called.2 :: rest.2)

/-- The while-loop of IoSendSynchronousIrp.  The local variable `Status` of
the C function is threaded as an `Option KSTATUS`: `none` means the local was
never assigned (it is uninitialized in the source), `some s` means it holds
`s`.  When a driver pends the IRP the sender blocks in ObWaitOnObject until
the IRP is resumed from another context, modelled by the `Resume` oracle; the
successful wait assigns STATUS_SUCCESS to the local. -/
def IoSendSynchronousLoop (Behavior : DRIVER_BEHAVIOR) (Resume : IRP → IRP)
    (PumpFuel : Nat) : Nat → Option KSTATUS → IRP → Option KSTATUS × IRP
  | 0, st, Irp => (st, Irp)
  | fuel + 1, st, Irp =>
    if Irp.DriverStackComplete then
      (st, Irp)
    else
      let pumped := (IopPumpIrpThroughStack Behavior PumpFuel Irp).1
      if pumped.Pending then
        let resumed := Resume pumped
        IoSendSynchronousLoop Behavior Resume PumpFuel fuel
          (some .success) { resumed with Pending := false }
      else
        IoSendSynchronousLoop Behavior Resume PumpFuel fuel st pumped

/-- IoSendSynchronousIrp from irp.c.  Checks the initialization preconditions
(valid minor code, direction down, no completion routine), unsignals the wait
object, sets IRP_ACTIVE, pumps the IRP until IRP_DRIVER_STACK_COMPLETE is
set (waiting whenever a driver pended), and clears IRP_ACTIVE.  The first
component of the result is the value of the C local `Status` at the return
statement: `none` means the local was never assigned on the path taken. -/
def IoSendSynchronousIrp (Behavior : DRIVER_BEHAVIOR) (Resume : IRP → IRP)
    (PumpFuel LoopFuel : Nat) (Irp : IRP) : Option KSTATUS × IRP :=
  if ¬Irp.MinorValid ∨ Irp.Direction ≠ .IrpDown ∨ Irp.HasCompletionRoutine then
    (some .invalidParameter, Irp)
  else
    let unsignalled := { Irp with Signalled := false, Active := true }
    let result := IoSendSynchronousLoop Behavior Resume PumpFuel LoopFuel
      none unsignalled
    (result.1, { result.2 with Active := false })

/-- IopInitializeIrp from irp.c: reset direction, status, stack index, clear
the per-cycle flags and the completion routine. -/
def IopInitializeIrp (Irp : IRP) : IRP :=
  { Irp with
    Direction := .IrpDown
    Status := .notHandled
    Complete := false
    Pending := false
    DriverStackComplete := false
    HasCompletionRoutine := false
    StackIndex := 0 }

/-- C10: if IoCompleteIrp, IoPendIrp, or IoContinueIrp is called by a driver
that does not own the IRP's current stack slot, the IRP is left entirely
unchanged — no flag set, no status recorded, no stack movement, no wait
object signalled; the mismatched call is a silent no-op. -/
theorem C10_nonowner_calls_are_noops (Driver owner : Nat) (Irp : IRP)
    (s : KSTATUS) (howner : Irp.Stack[Irp.StackIndex]? = some owner)
    (hne : owner ≠ Driver) :
    IoCompleteIrp Driver Irp s = Irp ∧ IoPendIrp Driver Irp = Irp ∧
      IoContinueIrp Driver Irp = Irp := by
  refine ⟨?_, ?_, ?_⟩ <;>
    simp [IoCompleteIrp, IoPendIrp, IoContinueIrp, howner, hne]

/-- A concrete pended two-slot IRP whose current slot is owned by driver 1,
used to witness theorems about mismatched callers. -/
def sampleIrp : IRP :=
  { Direction := .IrpDown
    Status := .notHandled
    MinorValid := true
    HasCompletionRoutine := false
    Stack := [1, 2]
    StackIndex := 0
    Active := true
    Complete := false
    Pending := true
    DriverStackComplete := false
    Signalled := false }

/-- Witness for C10: a concrete mismatched caller (driver 7, slot owned by
driver 1) leaves the IRP untouched by all three entry points. -/
theorem C10_witness :
    IoCompleteIrp 7 sampleIrp .success = sampleIrp ∧
      IoPendIrp 7 sampleIrp = sampleIrp ∧ IoContinueIrp 7 sampleIrp = sampleIrp :=
  C10_nonowner_calls_are_noops 7 1 sampleIrp .success (by decide) (by decide)

/-- An IRP mid-cycle over the given driver stack: direction and stack index
as given, per-cycle flags clear except possibly IRP_DRIVER_STACK_COMPLETE. -/
def mkCycleIrp (stack : List Nat) (dir : IRP_DIRECTION) (idx : Nat)
    (dsc : Bool) : IRP :=
  { Direction := dir
    Status := .notHandled
    MinorValid := true
    HasCompletionRoutine := false
    Stack := stack
    StackIndex := idx
    Active := true
    Complete := false
    Pending := false
    DriverStackComplete := dsc
    Signalled := false }

/-- The behaviour in which every dispatch routine returns without completing
or pending the IRP (scenario S1 of the spec). -/
def transparentBehavior : DRIVER_BEHAVIOR := fun _ _ => .DoNothing

/-- A pump invocation on an IRP whose driver stack is already complete makes
no dispatches. -/
theorem pump_dsc_done (Behavior : DRIVER_BEHAVIOR) (Irp : IRP)
    (hdsc : Irp.DriverStackComplete = true) :
    ∀ fuel, IopPumpIrpThroughStack Behavior fuel Irp = (Irp, []) := by
  intro fuel
  cases fuel with
  | zero => rfl
  | succ f => simp [IopPumpIrpThroughStack, hdsc]

/-- One iteration of the pump loop under the transparent behaviour: dispatch
the current slot (no state change), then advance. -/
theorem pump_transparent_step (fuel : Nat) (Irp : IRP)
    (hdsc : Irp.DriverStackComplete = false) (hpend : Irp.Pending = false) :
    IopPumpIrpThroughStack transparentBehavior (fuel + 1) Irp =
      ((IopPumpIrpThroughStack transparentBehavior fuel
          (IopAdvanceIrpStackLocation Irp)).1,
        (Irp.StackIndex, Irp.Direction) ::
          (IopPumpIrpThroughStack transparentBehavior fuel
            (IopAdvanceIrpStackLocation Irp)).2) := by
  simp [IopPumpIrpThroughStack, IopCallDriver, transparentBehavior, hdsc,
        hpend]

/-- Advancing a mid-cycle IRP that is going up at index 0 completes the
stack traversal. -/
theorem advance_mk_up_zero (stack : List Nat) :
    IopAdvanceIrpStackLocation (mkCycleIrp stack .IrpUp 0 false) =
      mkCycleIrp stack .IrpUp 0 true := by
  simp [IopAdvanceIrpStackLocation, mkCycleIrp]

/-- Advancing a mid-cycle IRP that is going up at a positive index moves it
one slot toward the top. -/
theorem advance_mk_up_succ (stack : List Nat) (j : Nat) :
    IopAdvanceIrpStackLocation (mkCycleIrp stack .IrpUp (j + 1) false) =
      mkCycleIrp stack .IrpUp j false := by
  simp [IopAdvanceIrpStackLocation, mkCycleIrp]

/-- Advancing a mid-cycle IRP going down above the deepest slot moves it one
slot deeper. -/
theorem advance_mk_down_lt (stack : List Nat) (i : Nat)
    (h : i + 1 < stack.length) :
    IopAdvanceIrpStackLocation (mkCycleIrp stack .IrpDown i false) =
      mkCycleIrp stack .IrpDown (i + 1) false := by
  simp [IopAdvanceIrpStackLocation, mkCycleIrp, h]

/-- Advancing a mid-cycle IRP going down at the deepest slot turns it around
without moving the index. -/
theorem advance_mk_down_turn (stack : List Nat) (i : Nat)
    (h : ¬(i + 1 < stack.length)) :
    IopAdvanceIrpStackLocation (mkCycleIrp stack .IrpDown i false) =
      mkCycleIrp stack .IrpUp i false := by
  simp [IopAdvanceIrpStackLocation, mkCycleIrp, h]

/-- Upward phase of a transparent send cycle: from stack index j going up,
the pump dispatches j, j-1, ..., 0 and sets IRP_DRIVER_STACK_COMPLETE. -/
theorem pump_up_phase (stack : List Nat) :
    ∀ j fuel, j + 2 ≤ fuel →
      IopPumpIrpThroughStack transparentBehavior fuel
          (mkCycleIrp stack .IrpUp j false) =
        (mkCycleIrp stack .IrpUp 0 true,
          ((List.range (j + 1)).reverse).map fun k => (k, IRP_DIRECTION.IrpUp)) := by
  intro j
  induction j with
  | zero =>
    intro fuel hf
    match fuel, hf with
    | f + 1, _ =>
      rw [pump_transparent_step f _ (by simp [mkCycleIrp]) (by simp [mkCycleIrp]),
          advance_mk_up_zero,
          pump_dsc_done transparentBehavior _ (by simp [mkCycleIrp]) f]
      simp [mkCycleIrp, List.range_succ]
  | succ j ih =>
    intro fuel hf
    match fuel, hf with
    | f + 1, _ =>
      rw [pump_transparent_step f _ (by simp [mkCycleIrp]) (by simp [mkCycleIrp]),
          advance_mk_up_succ, ih f (by omega)]
      simp [mkCycleIrp, List.range_succ]

/-- Downward phase of a transparent send cycle: from stack index i with
i + d + 1 = StackSize, the pump dispatches i, ..., StackSize-1 downward, then
the whole stack upward, and sets IRP_DRIVER_STACK_COMPLETE. -/
theorem pump_down_phase (stack : List Nat) :
    ∀ d i fuel, i + d + 1 = stack.length → stack.length + d + 2 ≤ fuel →
      IopPumpIrpThroughStack transparentBehavior fuel
          (mkCycleIrp stack .IrpDown i false) =
        (mkCycleIrp stack .IrpUp 0 true,
          (List.range' i (d + 1)).map (fun k => (k, IRP_DIRECTION.IrpDown)) ++
            ((List.range stack.length).reverse).map
              fun k => (k, IRP_DIRECTION.IrpUp)) := by
  intro d
  induction d with
  | zero =>
    intro i fuel hlen hf
    match fuel, hf with
    | f + 1, _ =>
      have hturn : ¬(i + 1 < stack.length) := by omega
      have hN : stack.length = i + 1 := by omega
      rw [pump_transparent_step f _ (by simp [mkCycleIrp]) (by simp [mkCycleIrp]),
          advance_mk_down_turn stack i hturn, pump_up_phase stack i f (by omega),
          hN]
      simp [mkCycleIrp]
  | succ d ih =>
    intro i fuel hlen hf
    match fuel, hf with
    | f + 1, _ =>
      have hstep : i + 1 < stack.length := by omega
      rw [pump_transparent_step f _ (by simp [mkCycleIrp]) (by simp [mkCycleIrp]),
          advance_mk_down_lt stack i hstep, ih (i + 1) f (by omega) (by omega)]
      simp [mkCycleIrp, List.range'_succ]

/-- C5: the traversal geometry of IopAdvanceIrpStackLocation — Down with
index < N-1 increments the index, Down with index = N-1 flips the direction
to Up leaving the index unchanged, Up with index > 0 decrements, Up with
index = 0 sets IRP_DRIVER_STACK_COMPLETE — and a full transparent send cycle
dispatches exactly stack[0..N) downward then stack[N-1..0] upward, the
deepest driver seeing the IRP twice back-to-back at the turn. -/
theorem C5_advance_geometry_and_cycle (N : Nat) (hN : 1 ≤ N)
    (stack : List Nat) (hs : stack.length = N) (Irp : IRP)
    (hlen : Irp.Stack.length = N) :
    (Irp.Direction = .IrpDown → Irp.StackIndex < N - 1 →
      IopAdvanceIrpStackLocation Irp =
        { Irp with StackIndex := Irp.StackIndex + 1 }) ∧
    (Irp.Direction = .IrpDown → Irp.StackIndex = N - 1 →
      IopAdvanceIrpStackLocation Irp = { Irp with Direction := .IrpUp }) ∧
    (Irp.Direction = .IrpUp → 0 < Irp.StackIndex →
      IopAdvanceIrpStackLocation Irp =
        { Irp with StackIndex := Irp.StackIndex - 1 }) ∧
    (Irp.Direction = .IrpUp → Irp.StackIndex = 0 →
      IopAdvanceIrpStackLocation Irp =
        { Irp with DriverStackComplete := true }) ∧
    IopPumpIrpThroughStack transparentBehavior (2 * N + 2)
        (mkCycleIrp stack .IrpDown 0 false) =
      (mkCycleIrp stack .IrpUp 0 true,
        (List.range N).map (fun k => (k, IRP_DIRECTION.IrpDown)) ++
          ((List.range N).reverse).map fun k => (k, IRP_DIRECTION.IrpUp)) := by
  refine ⟨?_, ?_, ?_, ?_, ?_⟩
  · intro hdir hidx
    have h : Irp.StackIndex + 1 < Irp.Stack.length := by omega
    simp [IopAdvanceIrpStackLocation, hdir, h]
  · intro hdir hidx
    have h : ¬(Irp.StackIndex + 1 < Irp.Stack.length) := by omega
    simp [IopAdvanceIrpStackLocation, hdir, h]
  · intro hdir hidx
    have h : Irp.StackIndex ≠ 0 := by omega
    simp [IopAdvanceIrpStackLocation, hdir, h]
  · intro hdir hidx
    simp [IopAdvanceIrpStackLocation, hdir, hidx]
  · have hlen0 : 0 + (N - 1) + 1 = stack.length := by omega
    have hf : stack.length + (N - 1) + 2 ≤ 2 * N + 2 := by omega
    have h := pump_down_phase stack (N - 1) 0 (2 * N + 2) hlen0 hf
    have hd : N - 1 + 1 = N := by omega
    rw [h, hd, hs, List.range_eq_range']

/-- Witness for C5: a two-driver stack, with the initial IRP of a send cycle,
dispatches 0-down, 1-down, 1-up, 0-up. -/
theorem C5_witness :
    (1 ≤ 2 ∧ ([5, 6] : List Nat).length = 2 ∧
      (mkCycleIrp [5, 6] .IrpDown 0 false).Stack.length = 2) ∧
    IopPumpIrpThroughStack transparentBehavior (2 * 2 + 2)
        (mkCycleIrp [5, 6] .IrpDown 0 false) =
      (mkCycleIrp [5, 6] .IrpUp 0 true,
        (List.range 2).map (fun k => (k, IRP_DIRECTION.IrpDown)) ++
          ((List.range 2).reverse).map fun k => (k, IRP_DIRECTION.IrpUp)) :=
  ⟨⟨by decide, by decide, by decide⟩,
    (C5_advance_geometry_and_cycle 2 (by decide) [5, 6] (by decide)
      (mkCycleIrp [5, 6] .IrpDown 0 false) (by decide)).2.2.2.2⟩

/-- C1 (code bug): in IoSendSynchronousIrp the local `Status` is only
assigned on the invalid-parameter path and by ObWaitOnObject on the pending
path; a send cycle in which no driver pends leaves it unassigned even though
the traversal runs to completion.  At a properly initialized single-driver
IRP whose driver neither pends nor completes, the function returns the
never-assigned local (`none`) while IRP_DRIVER_STACK_COMPLETE is set — not
STATUS_SUCCESS as the claim and the function's own documentation state. -/
theorem C1_unassigned_status_on_completed_traversal :
    (IoSendSynchronousIrp transparentBehavior id 4 2
        (mkCycleIrp [3] .IrpDown 0 false)).1 = none ∧
    (IoSendSynchronousIrp transparentBehavior id 4 2
        (mkCycleIrp [3] .IrpDown 0 false)).2.DriverStackComplete = true ∧
    (IoSendSynchronousIrp transparentBehavior id 4 2
        (mkCycleIrp [3] .IrpDown 0 false)).1 ≠ some .success := by
  refine ⟨rfl, rfl, by decide⟩

/-- A driver attached to the device stack as seen by IoCreateIrp: its id,
its driver context, and its function table's optional CreateIrp / DestroyIrp
entries.  `CreateResultStatus` is the status its CreateIrp hook returns when
present and `CreateResultContext` the per-IRP context the hook stores on
success (the stack entry's IrpContext stays zeroed otherwise). -/
structure DRIVER where
  Id : Nat
  DriverContext : Nat
  HasCreateIrp : Bool
  CreateResultStatus : KSTATUS
  CreateResultContext : Option Nat
  HasDestroyIrp : Bool
  deriving DecidableEq

/-- The IrpContext a driver's stack entry holds after a successful pass of
the IoCreateIrp hook loop. -/
def entryIrpContext (d : DRIVER) : Option Nat :=
  if d.HasCreateIrp then d.CreateResultContext else none

/-- The hook loop of IoCreateIrp: walk the drivers in stack order, fill each
entry's DriverStackEntry, and run the CreateIrp hook when present.  Returns
the filled entries, or — on the first hook failure — the failing driver and
the entries filled so far (the failing entry's DriverStackEntry was already
set before its hook ran). -/
def IopCreateIrpHookLoop :
    List DRIVER →
      (List (DRIVER × Option Nat)) ⊕ (DRIVER × List (DRIVER × Option Nat))
  | [] => .inl []
  | d :: rest =>
    if d.HasCreateIrp ∧ ¬KSUCCESS d.CreateResultStatus then
      .inr (d, [(d, none)])
    else
      match IopCreateIrpHookLoop rest with
      | .inl entries => .inl ((d, entryIrpContext d) :: entries)
      | .inr fail => .inr (fail.1, (d, entryIrpContext d) :: fail.2)

/-- The CreateIrpEnd cleanup of IoCreateIrp after a hook failure: iterate the
stack entries from index 0, stopping at the first entry whose
DriverStackEntry is still NULL, and for each call the DestroyIrp of
`CurrentStackEntry` — the FAILING entry — passing the failing entry's driver
context and the iterated entry's IrpContext.  Each recorded call is
(driver id whose DestroyIrp ran, DriverContext argument, IrpContext
argument). -/
def IopCreateIrpCleanup (failing : DRIVER)
    (entries : List (DRIVER × Option Nat)) : List (Nat × Nat × Option Nat) :=
  if failing.HasDestroyIrp then
    entries.map fun e => (failing.Id, failing.DriverContext, e.2)
  else
    []

/-- Result of IoCreateIrp: the filled IRP stack; or NULL together with the
internal failure status and the DestroyIrp calls the cleanup made; or a NULL
dereference (RtlZeroMemory on the unallocated stack). -/
inductive CREATE_IRP_RESULT where
  | ok (stack : List (DRIVER × Option Nat))
  | fail (status : KSTATUS) (destroyCalls : List (Nat × Nat × Option Nat))
  | nullDeref
  deriving DecidableEq

/-- IoCreateIrp from irp.c, for a target chain already flattened to the
ordered list of drivers (the chain walk only computes this list and the
stack size).  `allocIrpOk` is the outcome of ObCreateObject and
`allocStackOk` that of MmAllocateNonPagedPool for the stack.  When the stack
allocation fails the function sets STATUS_INSUFFICIENT_RESOURCES but does
not branch to the cleanup label: it falls through to RtlZeroMemory on the
NULL stack pointer (AllocationSize > 0 because the stack is nonempty). -/
def IoCreateIrp (drivers : List DRIVER) (allocIrpOk allocStackOk : Bool) :
    CREATE_IRP_RESULT :=
  if drivers.length = 0 then
    .fail .invalidConfiguration []
  else if ¬allocIrpOk then
    .fail .insufficientResources []
  else if ¬allocStackOk then
    .nullDeref
  else
    match IopCreateIrpHookLoop drivers with
    | .inl entries => .ok entries
    | .inr fail =>
      .fail fail.1.CreateResultStatus (IopCreateIrpCleanup fail.1 fail.2)

/-- Modelled from the spec's words for claim C3, to compare against the
code: DestroyIrp is called on exactly the entries prior to the failing one,
each with that entry's own driver (skipped when that driver has no
DestroyIrp), in reverse stack order. -/
def specClaimedDestroyCalls (entriesBeforeFailure : List (DRIVER × Option Nat)) :
    List (Nat × Nat × Option Nat) :=
  entriesBeforeFailure.reverse.filterMap fun e =>
    if e.1.HasDestroyIrp then some (e.1.Id, e.1.DriverContext, e.2) else none

/-- A first-stack driver whose CreateIrp hook succeeds storing context 7. -/
def driverA : DRIVER :=
  { Id := 0
    DriverContext := 10
    HasCreateIrp := true
    CreateResultStatus := .success
    CreateResultContext := some 7
    HasDestroyIrp := true }

/-- A second-stack driver whose CreateIrp hook fails. -/
def driverB : DRIVER :=
  { Id := 1
    DriverContext := 11
    HasCreateIrp := true
    CreateResultStatus := .insufficientResources
    CreateResultContext := none
    HasDestroyIrp := true }

/-- C2 (code bug): when the IRP stack allocation fails for a device with a
nonempty driver stack, IoCreateIrp does not release the IRP and return the
out-of-memory failure — it dereferences the unallocated (NULL) stack in
RtlZeroMemory. -/
theorem C2_stack_alloc_failure_derefs_null :
    IoCreateIrp [driverA] true false = .nullDeref ∧
      CREATE_IRP_RESULT.nullDeref ≠ .fail .insufficientResources [] := by
  exact ⟨rfl, by decide⟩

/-- Counterexample for C3: with driver A succeeding (context 7) and driver B
failing its CreateIrp hook, the cleanup calls B's DestroyIrp twice — on
entry 0 and on the failing entry itself, in forward order, with B's driver
context — whereas the claim predicts a single call to A's DestroyIrp with
A's context, on entry 0 only. -/
theorem C3_counterexample :
    IoCreateIrp [driverA, driverB] true true =
      .fail .insufficientResources [(1, 11, some 7), (1, 11, none)] ∧
    specClaimedDestroyCalls [(driverA, some 7)] = [(0, 10, some 7)] ∧
    ([(1, 11, some 7), (1, 11, none)] : List (Nat × Nat × Option Nat)) ≠
      [(0, 10, some 7)] := by
  refine ⟨by decide, by decide, by decide⟩

/-- The hook loop on a stack whose first failing hook is driver `bad`:
every driver before it is filled in with its own context, and the failing
entry is filled with no context. -/
theorem hookLoop_first_failure (good : List DRIVER) (bad : DRIVER)
    (rest : List DRIVER)
    (hgood : ∀ d ∈ good, d.HasCreateIrp = false ∨
      KSUCCESS d.CreateResultStatus = true)
    (hbad : bad.HasCreateIrp = true)
    (hbadf : KSUCCESS bad.CreateResultStatus = false) :
    IopCreateIrpHookLoop (good ++ bad :: rest) =
      .inr (bad, good.map (fun d => (d, entryIrpContext d)) ++ [(bad, none)]) := by
  induction good with
  | nil => simp [IopCreateIrpHookLoop, hbad, hbadf]
  | cons d good ih =>
    have hd := hgood d (by simp)
    have hrec := ih fun x hx => hgood x (by simp [hx])
    have hnofail : ¬(d.HasCreateIrp ∧ ¬KSUCCESS d.CreateResultStatus) := by
      rcases hd with h | h <;> simp [h]
    rcases hd with h | h <;> simp [IopCreateIrpHookLoop, hnofail, hrec, h]

/-- C3 (amended): when the first CreateIrp hook failure happens at driver
`bad`, IoCreateIrp calls `bad`'s own DestroyIrp (when present, otherwise
nothing) on every stack entry from index 0 through the failing entry
inclusive, in forward stack order, passing `bad`'s driver context and the
iterated entry's IrpContext, then releases the IRP and returns the
failure. -/
theorem C3_amended_cleanup_uses_failing_driver (good : List DRIVER)
    (bad : DRIVER) (rest : List DRIVER)
    (hgood : ∀ d ∈ good, d.HasCreateIrp = false ∨
      KSUCCESS d.CreateResultStatus = true)
    (hbad : bad.HasCreateIrp = true)
    (hbadf : KSUCCESS bad.CreateResultStatus = false) :
    IoCreateIrp (good ++ bad :: rest) true true =
      .fail bad.CreateResultStatus
        (if bad.HasDestroyIrp then
          good.map (fun d => (bad.Id, bad.DriverContext, entryIrpContext d)) ++
            [(bad.Id, bad.DriverContext, none)]
         else []) := by
  have hlen : ¬((good ++ bad :: rest).length = 0) := by simp
  unfold IoCreateIrp
  rw [if_neg hlen]
  simp [hookLoop_first_failure good bad rest hgood hbad hbadf,
        IopCreateIrpCleanup]
  split <;> simp [List.map_map, Function.comp]

/-- Witness for C3's amended claim at the concrete two-driver stack. -/
theorem C3_amended_witness :
    driverB.HasCreateIrp = true ∧ KSUCCESS driverB.CreateResultStatus = false ∧
    IoCreateIrp [driverA, driverB] true true =
      .fail driverB.CreateResultStatus
        (if driverB.HasDestroyIrp then
          [driverA].map
            (fun d => (driverB.Id, driverB.DriverContext, entryIrpContext d)) ++
            [(driverB.Id, driverB.DriverContext, none)]
         else []) :=
  ⟨by decide, by decide,
    C3_amended_cleanup_uses_failing_driver [driverA] driverB []
      (by decide) (by decide) (by decide)⟩

/-- Device lifecycle state as inspected by the synchronous helpers: only the
comparison with DeviceRemoved matters to them. -/
inductive DEVICE_STATE where
  | DeviceUnreported
  | DeviceStarted
  | DeviceRemoved
  deriving DecidableEq

/-- The device fields the synchronous helpers read: its state, whether the
object is a volume, and the volume's unmounting flag. -/
structure DEVICE where
  State : DEVICE_STATE
  IsVolume : Bool
  VolumeUnmounting : Bool
  deriving DecidableEq

/-- Observable outcome of a synchronous helper: the returned status, whether
the device's shared lock was acquired around the submission, and whether an
IRP was actually created and sent down the stack. -/
structure HELPER_RESULT where
  Status : KSTATUS
  AcquiredSharedLock : Bool
  SentIrp : Bool
  deriving DecidableEq

/-- IopSendOpenIrp from irp.c: acquire the device's shared lock, refuse a
removed device with STATUS_DEVICE_NOT_CONNECTED, create and send the open
IRP, and return the IRP's completion status.  `createOk` is the outcome of
IoCreateIrp, `sendStatus` that of IoSendSynchronousIrp, and `irpStatus` the
completed IRP's status from IoGetIrpStatus. -/
def IopSendOpenIrp (Device : DEVICE) (createOk : Bool)
    (sendStatus irpStatus : KSTATUS) : HELPER_RESULT :=
  if Device.State = .DeviceRemoved then
    { Status := .deviceNotConnected, AcquiredSharedLock := true,
      SentIrp := false }
  else if ¬createOk then
    { Status := .insufficientResources, AcquiredSharedLock := true,
      SentIrp := false }
  else if ¬KSUCCESS sendStatus then
    { Status := sendStatus, AcquiredSharedLock := true, SentIrp := true }
  else
    { Status := irpStatus, AcquiredSharedLock := true, SentIrp := true }

/-- IopSendCloseIrp from irp.c: creates and sends the close IRP directly —
it does not acquire the device's lock and does not inspect the device
state. -/
def IopSendCloseIrp (Device : DEVICE) (createOk : Bool)
    (sendStatus irpStatus : KSTATUS) : HELPER_RESULT :=
  if ¬createOk then
    { Status := .insufficientResources, AcquiredSharedLock := false,
      SentIrp := false }
  else if ¬KSUCCESS sendStatus then
    { Status := sendStatus, AcquiredSharedLock := false, SentIrp := true }
  else
    { Status := irpStatus, AcquiredSharedLock := false, SentIrp := true }

/-- The IRP_READ_WRITE parameter block fields the helpers manipulate. -/
structure IRP_READ_WRITE where
  IoOffset : Nat
  IoSizeInBytes : Nat
  IoBytesCompleted : Nat
  NewIoOffset : Nat
  deriving DecidableEq

/-- IopSendIoIrp from irp.c: creates and sends the I/O IRP directly — like
the close helper it does not acquire the device's lock and does not inspect
the device state.  On a successful send the driver-updated parameter block
(`deviceResult`, the contents of the IRP's U.ReadWrite after the stack
processed it) is copied back to the caller's request. -/
def IopSendIoIrp (Device : DEVICE) (createOk : Bool)
    (sendStatus irpStatus : KSTATUS) (Request deviceResult : IRP_READ_WRITE) :
    HELPER_RESULT × IRP_READ_WRITE :=
  if ¬createOk then
    ({ Status := .insufficientResources, AcquiredSharedLock := false,
       SentIrp := false }, Request)
  else if ¬KSUCCESS sendStatus then
    ({ Status := sendStatus, AcquiredSharedLock := false, SentIrp := true },
      Request)
  else
    ({ Status := irpStatus, AcquiredSharedLock := false, SentIrp := true },
      deviceResult)

/-- IopSendIoReadIrp from irp.c: send the read IRP through IopSendIoIrp,
then clamp the reported bytes against the file size read from the target's
file properties: if the read extends beyond the file size, the bytes
completed become the distance from the offset to the end of the file (zero
when the offset is already past it) and the new offset is recomputed. -/
def IopSendIoReadIrp (Device : DEVICE) (createOk : Bool)
    (sendStatus irpStatus : KSTATUS) (Request deviceResult : IRP_READ_WRITE)
    (FileSize : Nat) : HELPER_RESULT × IRP_READ_WRITE :=
  let sent := IopSendIoIrp Device createOk sendStatus irpStatus Request
    deviceResult
  let req := sent.2
  if req.IoOffset + req.IoBytesCompleted > FileSize then
    if req.IoOffset > FileSize then
      (sent.1, { req with IoBytesCompleted := 0, NewIoOffset := req.IoOffset })
    else
      (sent.1, { req with
        IoBytesCompleted := FileSize - req.IoOffset
        NewIoOffset := req.IoOffset + (FileSize - req.IoOffset) })
  else
    (sent.1, req)

/-- The system-control minor codes the helper distinguishes. -/
inductive SYSTEM_CONTROL_MINOR where
  | InvalidControl
  | WriteFileProperties
  | Delete
  | OtherControl (n : Nat)
  deriving DecidableEq

/-- IopSendSystemControlIrp from irp.c: refuse an invalid control number,
acquire the device's shared lock, refuse a removed device, and for an
unmounting volume allow only WriteFileProperties and Delete; then create and
send the IRP. -/
def IopSendSystemControlIrp (Device : DEVICE)
    (ControlNumber : SYSTEM_CONTROL_MINOR) (createOk : Bool)
    (sendStatus irpStatus : KSTATUS) : HELPER_RESULT :=
  if ControlNumber = .InvalidControl then
    { Status := .invalidParameter, AcquiredSharedLock := false,
      SentIrp := false }
  else if Device.State = .DeviceRemoved then
    { Status := .deviceNotConnected, AcquiredSharedLock := true,
      SentIrp := false }
  else if Device.IsVolume ∧ Device.VolumeUnmounting ∧
      ControlNumber ≠ .WriteFileProperties ∧ ControlNumber ≠ .Delete then
    { Status := .deviceNotConnected, AcquiredSharedLock := true,
      SentIrp := false }
  else if ¬createOk then
    { Status := .insufficientResources, AcquiredSharedLock := true,
      SentIrp := false }
  else if ¬KSUCCESS sendStatus then
    { Status := sendStatus, AcquiredSharedLock := true, SentIrp := true }
  else
    { Status := irpStatus, AcquiredSharedLock := true, SentIrp := true }

/-- IopSendUserControlIrp from irp.c: acquire the device's shared lock,
refuse a removed device, create and send the user-control IRP. -/
def IopSendUserControlIrp (Device : DEVICE) (createOk : Bool)
    (sendStatus irpStatus : KSTATUS) : HELPER_RESULT :=
  if Device.State = .DeviceRemoved then
    { Status := .deviceNotConnected, AcquiredSharedLock := true,
      SentIrp := false }
  else if ¬createOk then
    { Status := .insufficientResources, AcquiredSharedLock := true,
      SentIrp := false }
  else if ¬KSUCCESS sendStatus then
    { Status := sendStatus, AcquiredSharedLock := true, SentIrp := true }
  else
    { Status := irpStatus, AcquiredSharedLock := true, SentIrp := true }

/-- A removed device, for the C4 counterexample. -/
def removedDevice : DEVICE :=
  { State := .DeviceRemoved, IsVolume := false, VolumeUnmounting := false }

/-- Counterexample for C4: the close helper, called on a removed device,
takes no lock and submits the IRP anyway, returning the IRP's completion
status instead of STATUS_DEVICE_NOT_CONNECTED. -/
theorem C4_counterexample :
    IopSendCloseIrp removedDevice true .success .success =
      { Status := .success, AcquiredSharedLock := false, SentIrp := true } ∧
    KSTATUS.success ≠ .deviceNotConnected := by
  exact ⟨rfl, by decide⟩

/-- C4 (amended): the open, system-control (for a valid control number), and
user-control helpers acquire the device's shared lock for the submission and
fail with STATUS_DEVICE_NOT_CONNECTED, without sending an IRP, when the
device is Removed; the close and I/O helpers never acquire the lock and
submit regardless of the device state. -/
theorem C4_amended_lock_and_removed_checks (Device : DEVICE) (createOk : Bool)
    (sendStatus irpStatus : KSTATUS) (Control : SYSTEM_CONTROL_MINOR)
    (Request deviceResult : IRP_READ_WRITE)
    (hrem : Device.State = .DeviceRemoved)
    (hctl : Control ≠ .InvalidControl) :
    IopSendOpenIrp Device createOk sendStatus irpStatus =
      { Status := .deviceNotConnected, AcquiredSharedLock := true,
        SentIrp := false } ∧
    IopSendUserControlIrp Device createOk sendStatus irpStatus =
      { Status := .deviceNotConnected, AcquiredSharedLock := true,
        SentIrp := false } ∧
    IopSendSystemControlIrp Device Control createOk sendStatus irpStatus =
      { Status := .deviceNotConnected, AcquiredSharedLock := true,
        SentIrp := false } ∧
    (IopSendCloseIrp Device createOk sendStatus irpStatus).AcquiredSharedLock
      = false ∧
    (createOk = true →
      (IopSendCloseIrp Device createOk sendStatus irpStatus).SentIrp = true) ∧
    (IopSendIoIrp Device createOk sendStatus irpStatus Request
      deviceResult).1.AcquiredSharedLock = false ∧
    (createOk = true →
      (IopSendIoIrp Device createOk sendStatus irpStatus Request
        deviceResult).1.SentIrp = true) := by
  refine ⟨?_, ?_, ?_, ?_, ?_, ?_, ?_⟩
  · simp [IopSendOpenIrp, hrem]
  · simp [IopSendUserControlIrp, hrem]
  · simp [IopSendSystemControlIrp, hrem, hctl]
  · unfold IopSendCloseIrp; split <;> [skip; split] <;> rfl
  · intro hc
    unfold IopSendCloseIrp
    simp [hc]
    split <;> rfl
  · unfold IopSendIoIrp; split <;> [skip; split] <;> rfl
  · intro hc
    unfold IopSendIoIrp
    simp [hc]
    split <;> rfl

/-- Witness for C4's amended claim on a concrete removed device. -/
theorem C4_amended_witness :
    removedDevice.State = .DeviceRemoved ∧
    SYSTEM_CONTROL_MINOR.Delete ≠ .InvalidControl ∧
    IopSendOpenIrp removedDevice true .success .success =
      { Status := .deviceNotConnected, AcquiredSharedLock := true,
        SentIrp := false } ∧
    (IopSendCloseIrp removedDevice true .success .success).AcquiredSharedLock
      = false :=
  have h := C4_amended_lock_and_removed_checks removedDevice true .success
    .success .Delete ⟨0, 0, 0, 0⟩ ⟨0, 0, 0, 0⟩ (by decide) (by decide)
  ⟨by decide, by decide, h.1, h.2.2.2.1⟩

/-- C9: after the send, when the read's offset plus reported bytes completed
extends beyond the target's file size, IopSendIoReadIrp clamps the reported
bytes completed to max(0, fileSize - offset) and reports the new offset as
offset + bytesCompleted. -/
theorem C9_read_clamps_to_file_size (Device : DEVICE) (createOk : Bool)
    (sendStatus irpStatus : KSTATUS) (Request deviceResult : IRP_READ_WRITE)
    (FileSize : Nat)
    (hover : (IopSendIoIrp Device createOk sendStatus irpStatus Request
        deviceResult).2.IoOffset +
      (IopSendIoIrp Device createOk sendStatus irpStatus Request
        deviceResult).2.IoBytesCompleted > FileSize) :
    ((IopSendIoReadIrp Device createOk sendStatus irpStatus Request
        deviceResult FileSize).2.IoBytesCompleted : Int) =
      max 0 ((FileSize : Int) -
        ((IopSendIoIrp Device createOk sendStatus irpStatus Request
          deviceResult).2.IoOffset : Int)) ∧
    (IopSendIoReadIrp Device createOk sendStatus irpStatus Request
        deviceResult FileSize).2.NewIoOffset =
      (IopSendIoIrp Device createOk sendStatus irpStatus Request
          deviceResult).2.IoOffset +
        (IopSendIoReadIrp Device createOk sendStatus irpStatus Request
          deviceResult FileSize).2.IoBytesCompleted := by
  unfold IopSendIoReadIrp
  rw [if_pos hover]
  by_cases hpast : (IopSendIoIrp Device createOk sendStatus irpStatus Request
      deviceResult).2.IoOffset > FileSize
  · rw [if_pos hpast]
    constructor
    · simp only []
      omega
    · simp
  · rw [if_neg hpast]
    constructor
    · simp only []
      omega
    · simp

/-- Witness for C9: a device reporting 8 bytes completed at offset 96 on a
100-byte file is clamped to 4 bytes completed with new offset 100. -/
theorem C9_witness :
    (IopSendIoIrp removedDevice true .success .success ⟨96, 8, 0, 96⟩
        ⟨96, 8, 8, 104⟩).2.IoOffset +
      (IopSendIoIrp removedDevice true .success .success ⟨96, 8, 0, 96⟩
        ⟨96, 8, 8, 104⟩).2.IoBytesCompleted > 100 ∧
    ((IopSendIoReadIrp removedDevice true .success .success ⟨96, 8, 0, 96⟩
        ⟨96, 8, 8, 104⟩ 100).2.IoBytesCompleted : Int) =
      max 0 ((100 : Int) - 96) ∧
    (IopSendIoReadIrp removedDevice true .success .success ⟨96, 8, 0, 96⟩
        ⟨96, 8, 8, 104⟩ 100).2.NewIoOffset = 96 + 4 :=
  have h := C9_read_clamps_to_file_size removedDevice true .success .success
    ⟨96, 8, 0, 96⟩ ⟨96, 8, 8, 104⟩ 100 (by decide)
  ⟨by decide, by exact_mod_cast h.1, by
    have := h.2
    simpa using this⟩

/-- The fields of the active I/O IRP that SdpDmaCompletion reads and writes:
the minor code (write vs read) and the U.ReadWrite parameter block. -/
structure SD_IRP_IO where
  MinorIsWrite : Bool
  IoOffset : Nat
  IoSizeInBytes : Nat
  IoBytesCompleted : Nat
  NewIoOffset : Nat
  deriving DecidableEq

/-- What SdpDmaCompletion does on one invocation: complete the disk's active
IRP with a status, or submit the next DMA chunk to SdBlockIoDma with the
given block offset, block count and in-buffer offset. -/
inductive DMA_COMPLETION_RESULT where
  | CompletedIrp (status : KSTATUS) (io : SD_IRP_IO)
  | NextDma (blockOffset blockCount bufferOffset : Nat) (write : Bool)
      (io : SD_IRP_IO)
  deriving DecidableEq

/-- SdpDmaCompletion from sd.c: on failure complete the IRP with the failing
status; otherwise advance IoBytesCompleted and NewIoOffset by the bytes
transferred, complete with the (successful) status when all bytes are done,
and otherwise submit the next chunk starting from the new offset. -/
def SdpDmaCompletion (BlockShift : Nat) (io : SD_IRP_IO)
    (BytesTransferred : Nat) (Status : KSTATUS) : DMA_COMPLETION_RESULT :=
  if ¬KSUCCESS Status then
    .CompletedIrp Status io
  else
    let io2 := { io with
      IoBytesCompleted := io.IoBytesCompleted + BytesTransferred
      NewIoOffset := io.NewIoOffset + BytesTransferred }
    if io2.IoBytesCompleted = io2.IoSizeInBytes then
      .CompletedIrp Status io2
    else
      let ioOffset := io2.NewIoOffset
      let blockOffset := ioOffset >>> BlockShift
      let ioSize := io2.IoSizeInBytes - io2.IoBytesCompleted
      let blockCount := ioSize >>> BlockShift
      .NextDma blockOffset blockCount io2.IoBytesCompleted io2.MinorIsWrite io2

/-- C6: a failing DMA completion completes the IRP with that status and no
advancement; a successful one advances IoBytesCompleted and NewIoOffset by
the bytes transferred, completes the IRP with the success status exactly
when the advanced count reaches the requested size, and otherwise submits
the next chunk at block offset newOffset >> blockShift for the remaining
block count with buffer offset equal to the advanced bytes completed. -/
theorem C6_dma_completion_cases (BlockShift : Nat) (io : SD_IRP_IO)
    (BytesTransferred : Nat) (Status : KSTATUS) :
    (KSUCCESS Status = false →
      SdpDmaCompletion BlockShift io BytesTransferred Status =
        .CompletedIrp Status io) ∧
    (KSUCCESS Status = true →
      io.IoBytesCompleted + BytesTransferred = io.IoSizeInBytes →
      SdpDmaCompletion BlockShift io BytesTransferred Status =
        .CompletedIrp Status { io with
          IoBytesCompleted := io.IoBytesCompleted + BytesTransferred
          NewIoOffset := io.NewIoOffset + BytesTransferred }) ∧
    (KSUCCESS Status = true →
      io.IoBytesCompleted + BytesTransferred ≠ io.IoSizeInBytes →
      SdpDmaCompletion BlockShift io BytesTransferred Status =
        .NextDma ((io.NewIoOffset + BytesTransferred) >>> BlockShift)
          ((io.IoSizeInBytes - (io.IoBytesCompleted + BytesTransferred)) >>>
            BlockShift)
          (io.IoBytesCompleted + BytesTransferred) io.MinorIsWrite
          { io with
            IoBytesCompleted := io.IoBytesCompleted + BytesTransferred
            NewIoOffset := io.NewIoOffset + BytesTransferred }) := by
  refine ⟨?_, ?_, ?_⟩
  · intro hf
    simp [SdpDmaCompletion, hf]
  · intro hs hdone
    simp [SdpDmaCompletion, hs, hdone]
  · intro hs hmore
    simp [SdpDmaCompletion, hs, hmore]

/-- Witness for C6: a successful 512-byte transfer of a 1024-byte request
(256 bytes already done would not be block aligned; use 0 done) submits the
next chunk at the advanced offset. -/
theorem C6_witness :
    KSUCCESS .success = true ∧ (0 + 512 ≠ 1024) ∧
    SdpDmaCompletion 9 ⟨false, 4096, 1024, 0, 4096⟩ 512 .success =
      .NextDma ((4096 + 512) >>> 9) ((1024 - (0 + 512)) >>> 9) (0 + 512)
        false ⟨false, 4096, 1024, 0 + 512, 4096 + 512⟩ :=
  ⟨by decide, by decide,
    (C6_dma_completion_cases 9 ⟨false, 4096, 1024, 0, 4096⟩ 512
      .success).2.2 (by decide) (by decide)⟩

/-- KSUCCESS holds exactly for STATUS_SUCCESS among the modelled statuses. -/
theorem KSUCCESS_iff (s : KSTATUS) : KSUCCESS s = true ↔ s = .success := by
  cases s <;> simp [KSUCCESS]

/-- A scatter/gather fragment of an I/O buffer (IO_BUFFER_FRAGMENT):
virtual address and size.  The physical address is only read by ASSERTs. -/
structure IO_BUFFER_FRAGMENT where
  VirtualAddress : Nat
  Size : Nat
  deriving DecidableEq

/-- The I/O buffer fields SdpPerformBlockIoPolled reads: the fragment list
and the buffer's current offset (MmGetIoBufferCurrentOffset). -/
structure IO_BUFFER where
  Fragments : List IO_BUFFER_FRAGMENT
  CurrentOffset : Nat
  deriving DecidableEq

/-- The SD disk fields the polled path reads. -/
structure SD_DISK where
  BlockShift : Nat
  BlockCount : Nat
  MediaPresent : Bool
  deriving DecidableEq

/-- The find-the-starting-fragment loop of SdpPerformBlockIoPolled: walk the
fragments until the cumulative size reaches the buffer's current offset,
returning (fragment index, offset within that fragment).  Running out of
fragments with a nonzero remainder trips the C ASSERT; the model returns the
remainder as the offset. -/
def SdpFindStartFragment : Nat → Nat → List IO_BUFFER_FRAGMENT → Nat × Nat
  | IoBufferOffset, FragmentIndex, Fragments =>
    if IoBufferOffset = 0 then
      (FragmentIndex, 0)
    else
      match Fragments with
      | [] => (FragmentIndex, IoBufferOffset)
      | f :: rest =>
        if IoBufferOffset < f.Size then
          (FragmentIndex, IoBufferOffset)
        else
          SdpFindStartFragment (IoBufferOffset - f.Size) (FragmentIndex + 1)
            rest

/-- The per-fragment transfer loop of SdpPerformBlockIoPolled: while blocks
remain, compute the block count as the smaller of the blocks remaining and
the remaining fragment bytes shifted down, issue one synchronous polled
controller call at the fragment's virtual address plus the fragment offset,
and on success advance the block offset, the completed count, and the
fragment position (moving to the next fragment when the current one is
exhausted).  Returns (status, blocks completed, the controller calls made as
(block offset, block count, virtual address)).  `fuel` bounds the C while
loop; the `other` statuses mark exhaustion paths the C code would ASSERT
on (an out-of-range fragment index or a zero-block iteration). -/
def SdpPolledIoLoop (Controller : Nat → Nat → Nat → Bool → KSTATUS)
    (BlockShift : Nat) (Fragments : List IO_BUFFER_FRAGMENT)
    (BlocksToComplete : Nat) (Write : Bool) :
    Nat → Nat → Nat → Nat → Nat → KSTATUS × Nat × List (Nat × Nat × Nat)
  | 0, _, BlocksComplete, _, _ => (.other 1000, BlocksComplete, [])
  | fuel + 1, BlockOffset, BlocksComplete, FragmentIndex, FragmentOffset =>
    if BlocksComplete = BlocksToComplete then
      (.success, BlocksComplete, [])
    else
      match Fragments[FragmentIndex]? with
      | none => (.other 1001, BlocksComplete, [])
      | some frag =>
        let va := frag.VirtualAddress + FragmentOffset
        let fragmentSize := frag.Size - FragmentOffset
        let cnt := min (BlocksToComplete - BlocksComplete)
          (fragmentSize >>> BlockShift)
        let s := Controller BlockOffset cnt va Write
        if ¬KSUCCESS s then
          (s, BlocksComplete, [(BlockOffset, cnt, va)])
        else
          let fo2 := FragmentOffset + (cnt <<< BlockShift)
          let next := if fo2 ≥ frag.Size then (FragmentIndex + 1, 0)
            else (FragmentIndex, fo2)
          let rest := SdpPolledIoLoop Controller BlockShift Fragments
            BlocksToComplete Write fuel (BlockOffset + cnt)
            (BlocksComplete + cnt) next.1 next.2
          (rest.1, rest.2.1, (BlockOffset, cnt, va) :: rest.2.2)

/-- Observable outcome of SdpPerformBlockIoPolled: the returned status, the
blocks-completed out-parameter, the controller calls made, and how often the
controller lock was acquired and released. -/
structure POLLED_IO_RESULT where
  Status : KSTATUS
  BlocksCompleted : Nat
  ControllerCalls : List (Nat × Nat × Nat)
  LockAcquires : Nat
  LockReleases : Nat
  deriving DecidableEq

/-- The PerformBlockIoPolledEnd label of SdpPerformBlockIoPolled: release
the lock when held (`acquires` is 1 when it was acquired), and when a
substitute buffer was in use for a read that completed at least one block,
copy back into the original buffer — OVERWRITING the status variable with
the copy's status and zeroing the completed count if the copy fails. -/
def SdpPerformBlockIoPolledEnd (acquires : Nat) (Substituted Write : Bool)
    (CopyBackStatus Status : KSTATUS) (BlocksComplete : Nat)
    (Calls : List (Nat × Nat × Nat)) : POLLED_IO_RESULT :=
  if Substituted ∧ ¬Write ∧ BlocksComplete ≠ 0 then
    if ¬KSUCCESS CopyBackStatus then
      { Status := CopyBackStatus, BlocksCompleted := 0,
        ControllerCalls := Calls, LockAcquires := acquires,
        LockReleases := acquires }
    else
      { Status := CopyBackStatus, BlocksCompleted := BlocksComplete,
        ControllerCalls := Calls, LockAcquires := acquires,
        LockReleases := acquires }
  else
    { Status := Status, BlocksCompleted := BlocksComplete,
      ControllerCalls := Calls, LockAcquires := acquires,
      LockReleases := acquires }

/-- SdpPerformBlockIoPolled from sd.c.  External collaborators are oracle
parameters: `ValidateStatus`/`ValidatedBuffer` model MmValidateIoBuffer
(which may substitute a new buffer), `CopyStatus` the copy into a substitute
buffer before a write, `MapStatus` MmMapIoBuffer, and `CopyBackStatus` the
copy back into the original buffer after a read that used a substitute.
The cache flush of a completed read has no modelled state.  Every exit path
goes through the End label. -/
def SdpPerformBlockIoPolled (Disk : SD_DISK) (IoBuffer : IO_BUFFER)
    (ValidateStatus : KSTATUS) (ValidatedBuffer : IO_BUFFER)
    (CopyStatus MapStatus CopyBackStatus : KSTATUS)
    (Controller : Nat → Nat → Nat → Bool → KSTATUS)
    (BlockAddress BlocksToComplete : Nat) (Write LockRequired : Bool) :
    POLLED_IO_RESULT :=
  if ¬KSUCCESS ValidateStatus then
    SdpPerformBlockIoPolledEnd 0 false Write CopyBackStatus ValidateStatus
      0 []
  else
    let Substituted := decide (ValidatedBuffer ≠ IoBuffer)
    if Substituted ∧ Write ∧ ¬KSUCCESS CopyStatus then
      SdpPerformBlockIoPolledEnd 0 Substituted Write CopyBackStatus
        CopyStatus 0 []
    else if ¬KSUCCESS MapStatus then
      SdpPerformBlockIoPolledEnd 0 Substituted Write CopyBackStatus
        MapStatus 0 []
    else
      let start := SdpFindStartFragment ValidatedBuffer.CurrentOffset 0
        ValidatedBuffer.Fragments
      let acquires := if LockRequired then 1 else 0
      if ¬Disk.MediaPresent then
        SdpPerformBlockIoPolledEnd acquires Substituted Write CopyBackStatus
          .noMedia 0 []
      else
        let fuel := BlocksToComplete + ValidatedBuffer.Fragments.length + 1
        let looped := SdpPolledIoLoop Controller Disk.BlockShift
          ValidatedBuffer.Fragments BlocksToComplete Write fuel BlockAddress
          0 start.1 start.2
        SdpPerformBlockIoPolledEnd acquires Substituted Write CopyBackStatus
          looped.1 looped.2.1 looped.2.2

/-- The End label keeps the lock-event counts it is given. -/
theorem polledEnd_lock_counts (acquires : Nat) (Substituted Write : Bool)
    (CopyBackStatus Status : KSTATUS) (BlocksComplete : Nat)
    (Calls : List (Nat × Nat × Nat)) :
    (SdpPerformBlockIoPolledEnd acquires Substituted Write CopyBackStatus
      Status BlocksComplete Calls).LockAcquires = acquires ∧
    (SdpPerformBlockIoPolledEnd acquires Substituted Write CopyBackStatus
      Status BlocksComplete Calls).LockReleases = acquires := by
  unfold SdpPerformBlockIoPolledEnd
  split_ifs <;> exact ⟨rfl, rfl⟩

/-- The End label with zero blocks completed is transparent. -/
theorem polledEnd_zero (acquires : Nat) (Substituted Write : Bool)
    (CopyBackStatus Status : KSTATUS) (Calls : List (Nat × Nat × Nat)) :
    SdpPerformBlockIoPolledEnd acquires Substituted Write CopyBackStatus
      Status 0 Calls =
    { Status := Status, BlocksCompleted := 0, ControllerCalls := Calls,
      LockAcquires := acquires, LockReleases := acquires } := by
  simp [SdpPerformBlockIoPolledEnd]

/-- When the End label returns STATUS_SUCCESS, either the incoming status
was already STATUS_SUCCESS and the completed count is passed through
unchanged, or the substitute-read copy back replaced the status. -/
theorem polledEnd_success (acquires : Nat) (Substituted Write : Bool)
    (CopyBackStatus Status : KSTATUS) (BlocksComplete : Nat)
    (Calls : List (Nat × Nat × Nat))
    (h : (SdpPerformBlockIoPolledEnd acquires Substituted Write
      CopyBackStatus Status BlocksComplete Calls).Status = .success) :
    ((SdpPerformBlockIoPolledEnd acquires Substituted Write CopyBackStatus
        Status BlocksComplete Calls).BlocksCompleted = BlocksComplete ∧
      Status = .success) ∨
      (Substituted = true ∧ Write = false) := by
  by_cases hs : (Substituted = true ∧ ¬(Write = true) ∧ BlocksComplete ≠ 0)
  · exact Or.inr ⟨hs.1, by simpa using hs.2.1⟩
  · unfold SdpPerformBlockIoPolledEnd at h ⊢
    rw [if_neg hs] at h ⊢
    exact Or.inl ⟨rfl, h⟩

/-- Loop equation: all requested blocks are complete. -/
theorem SdpPolledIoLoop_done (Controller : Nat → Nat → Nat → Bool → KSTATUS)
    (BlockShift : Nat) (Fragments : List IO_BUFFER_FRAGMENT)
    (BlocksToComplete : Nat) (Write : Bool) (fuel bo bc fi fo : Nat)
    (hbc : bc = BlocksToComplete) :
    SdpPolledIoLoop Controller BlockShift Fragments BlocksToComplete Write
      (fuel + 1) bo bc fi fo = (.success, bc, []) := by
  simp [SdpPolledIoLoop, hbc]

/-- Loop equation: the fragment index has run off the end of the buffer
(the C ASSERT would fire). -/
theorem SdpPolledIoLoop_noFragment
    (Controller : Nat → Nat → Nat → Bool → KSTATUS) (BlockShift : Nat)
    (Fragments : List IO_BUFFER_FRAGMENT) (BlocksToComplete : Nat)
    (Write : Bool) (fuel bo bc fi fo : Nat) (hbc : bc ≠ BlocksToComplete)
    (hfrag : Fragments[fi]? = none) :
    SdpPolledIoLoop Controller BlockShift Fragments BlocksToComplete Write
      (fuel + 1) bo bc fi fo = (.other 1001, bc, []) := by
  simp [SdpPolledIoLoop, hbc, hfrag]

/-- Loop equation: the controller call of this iteration fails, so the loop
aborts with that status after recording the one call. -/
theorem SdpPolledIoLoop_fail (Controller : Nat → Nat → Nat → Bool → KSTATUS)
    (BlockShift : Nat) (Fragments : List IO_BUFFER_FRAGMENT)
    (BlocksToComplete : Nat) (Write : Bool) (fuel bo bc fi fo : Nat)
    (frag : IO_BUFFER_FRAGMENT) (hbc : bc ≠ BlocksToComplete)
    (hfrag : Fragments[fi]? = some frag)
    (hctl : KSUCCESS (Controller bo
      (min (BlocksToComplete - bc) ((frag.Size - fo) >>> BlockShift))
      (frag.VirtualAddress + fo) Write) = false) :
    SdpPolledIoLoop Controller BlockShift Fragments BlocksToComplete Write
        (fuel + 1) bo bc fi fo =
      (Controller bo
        (min (BlocksToComplete - bc) ((frag.Size - fo) >>> BlockShift))
        (frag.VirtualAddress + fo) Write, bc,
        [(bo, min (BlocksToComplete - bc) ((frag.Size - fo) >>> BlockShift),
          frag.VirtualAddress + fo)]) := by
  simp [SdpPolledIoLoop, hbc, hfrag, hctl]

/-- Loop equation: the controller call of this iteration succeeds, so the
loop advances and recurses. -/
theorem SdpPolledIoLoop_step (Controller : Nat → Nat → Nat → Bool → KSTATUS)
    (BlockShift : Nat) (Fragments : List IO_BUFFER_FRAGMENT)
    (BlocksToComplete : Nat) (Write : Bool) (fuel bo bc fi fo : Nat)
    (frag : IO_BUFFER_FRAGMENT) (hbc : bc ≠ BlocksToComplete)
    (hfrag : Fragments[fi]? = some frag)
    (hctl : KSUCCESS (Controller bo
      (min (BlocksToComplete - bc) ((frag.Size - fo) >>> BlockShift))
      (frag.VirtualAddress + fo) Write) = true) :
    SdpPolledIoLoop Controller BlockShift Fragments BlocksToComplete Write
        (fuel + 1) bo bc fi fo =
      (let cnt := min (BlocksToComplete - bc)
        ((frag.Size - fo) >>> BlockShift)
      let next := if fo + (cnt <<< BlockShift) ≥ frag.Size then (fi + 1, 0)
        else (fi, fo + (cnt <<< BlockShift))
      let rest := SdpPolledIoLoop Controller BlockShift Fragments
        BlocksToComplete Write fuel (bo + cnt) (bc + cnt) next.1 next.2
      (rest.1, rest.2.1,
        (bo, cnt, frag.VirtualAddress + fo) :: rest.2.2)) := by
  simp [SdpPolledIoLoop, hbc, hfrag, hctl]

/-- A successful polled loop ran the full requested block count. -/
theorem polledLoop_success_complete
    (Controller : Nat → Nat → Nat → Bool → KSTATUS) (BlockShift : Nat)
    (Fragments : List IO_BUFFER_FRAGMENT) (BlocksToComplete : Nat)
    (Write : Bool) :
    ∀ fuel bo bc fi fo,
      (SdpPolledIoLoop Controller BlockShift Fragments BlocksToComplete Write
        fuel bo bc fi fo).1 = .success →
      (SdpPolledIoLoop Controller BlockShift Fragments BlocksToComplete Write
        fuel bo bc fi fo).2.1 = BlocksToComplete := by
  intro fuel
  induction fuel with
  | zero => intro bo bc fi fo h; exact absurd h (by simp [SdpPolledIoLoop])
  | succ fuel ih =>
    intro bo bc fi fo h
    by_cases hbc : bc = BlocksToComplete
    · rw [SdpPolledIoLoop_done Controller BlockShift Fragments BlocksToComplete
        Write fuel bo bc fi fo hbc]
      exact hbc
    · cases hfrag : Fragments[fi]? with
      | none =>
        rw [SdpPolledIoLoop_noFragment Controller BlockShift Fragments
          BlocksToComplete Write fuel bo bc fi fo hbc hfrag] at h
        exact absurd h (by simp)
      | some frag =>
        by_cases hctl : KSUCCESS (Controller bo
            (min (BlocksToComplete - bc) ((frag.Size - fo) >>> BlockShift))
            (frag.VirtualAddress + fo) Write) = true
        · rw [SdpPolledIoLoop_step Controller BlockShift Fragments
            BlocksToComplete Write fuel bo bc fi fo frag hbc hfrag hctl] at h ⊢
          exact ih _ _ _ _ h
        · rw [SdpPolledIoLoop_fail Controller BlockShift Fragments
            BlocksToComplete Write fuel bo bc fi fo frag hbc hfrag
            (by simpa using hctl)] at h
          simp only [] at h
          rw [← KSUCCESS_iff] at h
          exact absurd h (by simpa using hctl)

/-- Counterexample for C7: a read through a substitute buffer in which the
controller succeeds for the first block and fails for the second.  The copy
back into the original buffer overwrites the failure status with its own
success, so the function returns STATUS_SUCCESS with blocksCompleted = 1
out of 2 — the controller failure is not surfaced and a success return does
not carry the full requested count, contradicting the claim. -/
theorem C7_counterexample :
    SdpPerformBlockIoPolled ⟨0, 16, true⟩ ⟨[⟨100, 1⟩, ⟨200, 1⟩], 0⟩
        .success ⟨[⟨300, 1⟩, ⟨400, 1⟩], 0⟩ .success .success .success
        (fun bo _ _ _ => if bo = 0 then .success else .other 5) 0 2 false
        false =
      { Status := .success, BlocksCompleted := 1,
        ControllerCalls := [(0, 1, 300), (1, 1, 400)], LockAcquires := 0,
        LockReleases := 0 } ∧
    (1 : Nat) ≠ 2 ∧ KSTATUS.other 5 ≠ .success := by
  refine ⟨by decide, by decide, by decide⟩

/-- C7 (amended): when LockRequired is false the controller lock is never
acquired or released; each loop iteration issues exactly one synchronous
polled controller call for min(blocks remaining, remaining fragment bytes >>
blockShift) blocks at the current fragment's virtual address plus the
current fragment offset; a controller failure aborts the loop with that
status and no further calls; and a success return carries the full requested
block count unless a substitute buffer was in use for a read, in which case
the copy-back status replaces the loop status and the count may be the
partial count completed before a failure. -/
theorem C7_polled_io_geometry (Disk : SD_DISK) (IoBuffer : IO_BUFFER)
    (ValidateStatus : KSTATUS) (ValidatedBuffer : IO_BUFFER)
    (CopyStatus MapStatus CopyBackStatus : KSTATUS)
    (Controller : Nat → Nat → Nat → Bool → KSTATUS)
    (BlockAddress BlocksToComplete : Nat) (Write LockRequired : Bool)
    (fuel bo bc fi fo : Nat) (frag : IO_BUFFER_FRAGMENT)
    (hbc : bc ≠ BlocksToComplete)
    (hfrag : ValidatedBuffer.Fragments[fi]? = some frag) :
    ((SdpPerformBlockIoPolled Disk IoBuffer ValidateStatus ValidatedBuffer
        CopyStatus MapStatus CopyBackStatus Controller BlockAddress
        BlocksToComplete Write false).LockAcquires = 0 ∧
      (SdpPerformBlockIoPolled Disk IoBuffer ValidateStatus ValidatedBuffer
        CopyStatus MapStatus CopyBackStatus Controller BlockAddress
        BlocksToComplete Write false).LockReleases = 0) ∧
    ((SdpPolledIoLoop Controller Disk.BlockShift ValidatedBuffer.Fragments
        BlocksToComplete Write (fuel + 1) bo bc fi fo).2.2.head? =
      some (bo,
        min (BlocksToComplete - bc) ((frag.Size - fo) >>> Disk.BlockShift),
        frag.VirtualAddress + fo)) ∧
    (KSUCCESS (Controller bo
        (min (BlocksToComplete - bc) ((frag.Size - fo) >>> Disk.BlockShift))
        (frag.VirtualAddress + fo) Write) = false →
      SdpPolledIoLoop Controller Disk.BlockShift ValidatedBuffer.Fragments
          BlocksToComplete Write (fuel + 1) bo bc fi fo =
        (Controller bo
          (min (BlocksToComplete - bc) ((frag.Size - fo) >>> Disk.BlockShift))
          (frag.VirtualAddress + fo) Write, bc,
          [(bo, min (BlocksToComplete - bc)
            ((frag.Size - fo) >>> Disk.BlockShift),
            frag.VirtualAddress + fo)])) ∧
    ((SdpPerformBlockIoPolled Disk IoBuffer ValidateStatus ValidatedBuffer
        CopyStatus MapStatus CopyBackStatus Controller BlockAddress
        BlocksToComplete Write LockRequired).Status = .success →
      (SdpPerformBlockIoPolled Disk IoBuffer ValidateStatus ValidatedBuffer
        CopyStatus MapStatus CopyBackStatus Controller BlockAddress
        BlocksToComplete Write LockRequired).BlocksCompleted =
          BlocksToComplete ∨
        (ValidatedBuffer ≠ IoBuffer ∧ Write = false)) := by
  refine ⟨?_, ?_, ?_, ?_⟩
  · simp only [SdpPerformBlockIoPolled]
    split_ifs <;> simp_all [polledEnd_lock_counts]
  · by_cases hctl : KSUCCESS (Controller bo
        (min (BlocksToComplete - bc) ((frag.Size - fo) >>> Disk.BlockShift))
        (frag.VirtualAddress + fo) Write) = true
    · rw [SdpPolledIoLoop_step Controller Disk.BlockShift
        ValidatedBuffer.Fragments BlocksToComplete Write fuel bo bc fi fo
        frag hbc hfrag hctl]
      simp
    · rw [SdpPolledIoLoop_fail Controller Disk.BlockShift
        ValidatedBuffer.Fragments BlocksToComplete Write fuel bo bc fi fo
        frag hbc hfrag (by simpa using hctl)]
      simp
  · intro hctl
    exact SdpPolledIoLoop_fail Controller Disk.BlockShift
      ValidatedBuffer.Fragments BlocksToComplete Write fuel bo bc fi fo
      frag hbc hfrag hctl
  · intro hst
    simp only [SdpPerformBlockIoPolled] at hst ⊢
    split_ifs at hst ⊢ <;>
      first
      | (rw [polledEnd_zero] at hst
         rw [← KSUCCESS_iff] at hst
         simp_all [KSUCCESS])
      | (rcases polledEnd_success _ _ _ _ _ _ _ hst with ⟨hblocks, hloop⟩ | hsub
         · exact Or.inl (hblocks.trans (polledLoop_success_complete Controller
             Disk.BlockShift ValidatedBuffer.Fragments BlocksToComplete Write
             _ _ _ _ _ hloop))
         · exact Or.inr ⟨by simpa using hsub.1, hsub.2⟩)

/-- Witness for C7's amended claim: a lock-free polled read of 2 blocks from
a single 2-block fragment with an always-successful controller. -/
theorem C7_witness :
    ((0 : Nat) ≠ 2) ∧
    ((⟨[⟨100, 2⟩], 0⟩ : IO_BUFFER).Fragments[0]? = some ⟨100, 2⟩) ∧
    ((SdpPerformBlockIoPolled ⟨0, 16, true⟩ ⟨[⟨100, 2⟩], 0⟩ .success
        ⟨[⟨100, 2⟩], 0⟩ .success .success .success (fun _ _ _ _ => .success)
        0 2 false false).LockAcquires = 0 ∧
      (SdpPerformBlockIoPolled ⟨0, 16, true⟩ ⟨[⟨100, 2⟩], 0⟩ .success
        ⟨[⟨100, 2⟩], 0⟩ .success .success .success (fun _ _ _ _ => .success)
        0 2 false false).LockReleases = 0) ∧
    (SdpPolledIoLoop (fun _ _ _ _ => .success) (⟨0, 16, true⟩ : SD_DISK).BlockShift
        (⟨[⟨100, 2⟩], 0⟩ : IO_BUFFER).Fragments 2 false (0 + 1) 0 0 0 0).2.2.head? =
      some (0, min (2 - 0) (((⟨100, 2⟩ : IO_BUFFER_FRAGMENT).Size - 0) >>> 
        (⟨0, 16, true⟩ : SD_DISK).BlockShift),
        (⟨100, 2⟩ : IO_BUFFER_FRAGMENT).VirtualAddress + 0) :=
  have h := C7_polled_io_geometry ⟨0, 16, true⟩ ⟨[⟨100, 2⟩], 0⟩ .success
    ⟨[⟨100, 2⟩], 0⟩ .success .success .success (fun _ _ _ _ => .success)
    0 2 false false 0 0 0 0 0 ⟨100, 2⟩ (by decide) (by decide)
  ⟨by decide, by decide, h.1, h.2.1⟩

/-- The SD disk context fields SdpSlotQueryChildren manipulates: the atomic
reference count, the flag bits, geometry, and whether the OS device for the
disk has been created (Disk->Device != NULL). -/
structure SD_DISK_CTX where
  ReferenceCount : Nat
  MediaPresent : Bool
  DmaSupported : Bool
  BlockShift : Nat
  BlockCount : Nat
  HasDevice : Bool
  deriving DecidableEq

/-- The SD slot fields SdpSlotQueryChildren manipulates: the two atomically
updated pending bits and the current child disk. -/
structure SD_SLOT where
  InsertionPending : Bool
  RemovalPending : Bool
  Disk : Option SD_DISK_CTX
  deriving DecidableEq

/-- RtlCountTrailingZeros32: index of the lowest set bit (32 for zero). -/
def RtlCountTrailingZeros32 (Value : Nat) : Nat :=
  (List.range 32).findIdx fun b => Value / 2 ^ b % 2 = 1

/-- SdpCreateDisk from sd.c: a zeroed disk context with one reference,
bound to its slot's controller and lock. -/
def SdpCreateDisk : SD_DISK_CTX :=
  { ReferenceCount := 1
    MediaPresent := false
    DmaSupported := false
    BlockShift := 0
    BlockCount := 0
    HasDevice := false }

/-- SdpDiskReleaseReference from sd.c: atomically decrement the reference
count; when the previous value was 1 the disk is destroyed
(SdpDestroyDisk frees it).  Returns the updated context and whether it was
freed. -/
def SdpDiskReleaseReference (Disk : SD_DISK_CTX) : SD_DISK_CTX × Bool :=
  let OldReferenceCount := Disk.ReferenceCount
  ({ Disk with ReferenceCount := OldReferenceCount - 1 },
    OldReferenceCount = 1)

/-- Observable outcome of SdpSlotQueryChildren: the returned status, the
slot afterwards, whether the child disk was merged into the IRP's child
list, and the never-published new disk released at the end label (with the
flag telling whether its release freed it). -/
structure QUERY_CHILDREN_RESULT where
  Status : KSTATUS
  Slot : SD_SLOT
  ChildEnumerated : Bool
  ReleasedDisk : Option SD_DISK_CTX
  DiskFreed : Bool
  deriving DecidableEq

/-- The SlotQueryChildrenEnd label of SdpSlotQueryChildren: if a new disk
was created but never attached (NewDisk != NULL), drop its reference —
which frees it, since nothing else ever referenced it. -/
def SdpSlotQueryChildrenEnd (Status : KSTATUS) (Slot : SD_SLOT)
    (NewDisk : Option SD_DISK_CTX) (ChildEnumerated : Bool) :
    QUERY_CHILDREN_RESULT :=
  match NewDisk with
  | none =>
    { Status := Status, Slot := Slot, ChildEnumerated := ChildEnumerated,
      ReleasedDisk := none, DiskFreed := false }
  | some d =>
    let released := SdpDiskReleaseReference d
    { Status := Status, Slot := Slot, ChildEnumerated := ChildEnumerated,
      ReleasedDisk := some released.1, DiskFreed := released.2 }

/-- The child-enumeration tail of SdpSlotQueryChildren: skip enumeration
when the slot has no disk; otherwise merge the one child device into the
IRP's child array. -/
def SdpSlotEnumerate (Slot : SD_SLOT) (MergeStatus : KSTATUS)
    (NewDisk : Option SD_DISK_CTX) : QUERY_CHILDREN_RESULT :=
  match Slot.Disk with
  | none => SdpSlotQueryChildrenEnd .success Slot NewDisk false
  | some _ =>
    if ¬KSUCCESS MergeStatus then
      SdpSlotQueryChildrenEnd MergeStatus Slot NewDisk false
    else
      SdpSlotQueryChildrenEnd MergeStatus Slot NewDisk true

/-- SdpSlotQueryChildren from sd.c.  The controller facade operations are
oracle parameters: `InitStatus` is SdInitializeController's result,
`CreateDiskOk` whether the disk allocation succeeds, `MediaStatus` /
`MediaBlockCount` / `MediaBlockSize` the result of SdGetMediaParameters,
`DmaStatus` SdInitializeDma's result, `CreateDeviceStatus` IoCreateDevice's
result, and `MergeStatus` IoMergeChildArrays' result.  Atomically clear and
observe the pending bits; detach any existing disk (clearing its media
present bit under the slot lock) when either bit was set; on a pending
insertion reinitialize the controller (Timeout converts to success with no
device), allocate a fresh disk with one reference, read the media geometry
(NoMedia converts to success), initialize DMA (failure merely leaves
DmaSupported clear, NoMedia converts to success), set MediaPresent, create
the OS device and attach the disk to the slot; then enumerate the child.
The end label releases a created-but-never-attached disk. -/
def SdpSlotQueryChildren (Slot : SD_SLOT) (InitStatus : KSTATUS)
    (CreateDiskOk : Bool) (MediaStatus : KSTATUS)
    (MediaBlockCount MediaBlockSize : Nat)
    (DmaStatus CreateDeviceStatus MergeStatus : KSTATUS) :
    QUERY_CHILDREN_RESULT :=
  let OldInsertion := Slot.InsertionPending
  let OldRemoval := Slot.RemovalPending
  let slot1 : SD_SLOT :=
    { Slot with InsertionPending := false, RemovalPending := false }
  let slot2 : SD_SLOT :=
    if OldInsertion ∨ OldRemoval then
      match slot1.Disk with
      | some _ => { slot1 with Disk := none }
      | none => slot1
    else
      slot1
  if OldInsertion then
    if ¬KSUCCESS InitStatus then
      SdpSlotQueryChildrenEnd
        (if InitStatus = .timeout then .success else InitStatus) slot2 none
        false
    else if ¬CreateDiskOk then
      SdpSlotQueryChildrenEnd .insufficientResources slot2 none false
    else
      let newDisk := SdpCreateDisk
      if ¬KSUCCESS MediaStatus then
        SdpSlotQueryChildrenEnd
          (if MediaStatus = .noMedia then .success else MediaStatus) slot2
          (some newDisk) false
      else
        let newDisk2 := { newDisk with
          BlockCount := MediaBlockCount
          BlockShift := RtlCountTrailingZeros32 MediaBlockSize }
        if KSUCCESS DmaStatus then
          let newDisk3 := { newDisk2 with
            DmaSupported := true, MediaPresent := true }
          if ¬KSUCCESS CreateDeviceStatus then
            SdpSlotQueryChildrenEnd CreateDeviceStatus slot2 (some newDisk3)
              false
          else
            let newDisk4 := { newDisk3 with HasDevice := true }
            SdpSlotEnumerate { slot2 with Disk := some newDisk4 } MergeStatus
              none
        else if DmaStatus = .noMedia then
          SdpSlotQueryChildrenEnd .success slot2 (some newDisk2) false
        else
          let newDisk3 := { newDisk2 with MediaPresent := true }
          if ¬KSUCCESS CreateDeviceStatus then
            SdpSlotQueryChildrenEnd CreateDeviceStatus slot2 (some newDisk3)
              false
          else
            let newDisk4 := { newDisk3 with HasDevice := true }
            SdpSlotEnumerate { slot2 with Disk := some newDisk4 } MergeStatus
              none
  else
    SdpSlotEnumerate slot2 MergeStatus none

/-- C8: when an insertion is pending and the controller reports NoMedia
after the disk context was allocated — from get-media-parameters or from
DMA initialization — QueryChildren returns Success with no disk attached to
the slot and no child enumerated, and the never-published disk context
(its OS device was never created) has its reference count dropped to zero
and is freed. -/
theorem C8_no_media_releases_new_disk (Slot : SD_SLOT) (InitStatus : KSTATUS)
    (MediaStatus : KSTATUS) (MediaBlockCount MediaBlockSize : Nat)
    (DmaStatus CreateDeviceStatus MergeStatus : KSTATUS)
    (hins : Slot.InsertionPending = true)
    (hinit : KSUCCESS InitStatus = true)
    (hnomedia : MediaStatus = .noMedia ∨
      (KSUCCESS MediaStatus = true ∧ DmaStatus = .noMedia)) :
    (SdpSlotQueryChildren Slot InitStatus true MediaStatus MediaBlockCount
      MediaBlockSize DmaStatus CreateDeviceStatus MergeStatus).Status =
        .success ∧
    (SdpSlotQueryChildren Slot InitStatus true MediaStatus MediaBlockCount
      MediaBlockSize DmaStatus CreateDeviceStatus MergeStatus).Slot.Disk =
        none ∧
    (SdpSlotQueryChildren Slot InitStatus true MediaStatus MediaBlockCount
      MediaBlockSize DmaStatus CreateDeviceStatus
      MergeStatus).ChildEnumerated = false ∧
    (SdpSlotQueryChildren Slot InitStatus true MediaStatus MediaBlockCount
      MediaBlockSize DmaStatus CreateDeviceStatus MergeStatus).DiskFreed =
        true ∧
    ((SdpSlotQueryChildren Slot InitStatus true MediaStatus MediaBlockCount
      MediaBlockSize DmaStatus CreateDeviceStatus
      MergeStatus).ReleasedDisk.map SD_DISK_CTX.ReferenceCount) = some 0 ∧
    ((SdpSlotQueryChildren Slot InitStatus true MediaStatus MediaBlockCount
      MediaBlockSize DmaStatus CreateDeviceStatus
      MergeStatus).ReleasedDisk.map SD_DISK_CTX.HasDevice) = some false := by
  obtain ⟨ins, rem, disk⟩ := Slot
  have hins' : ins = true := hins
  subst hins'
  have hinit' : InitStatus = .success := (KSUCCESS_iff _).1 hinit
  subst hinit'
  rcases hnomedia with hmedia | ⟨hmedia, hdma⟩
  · subst hmedia
    cases disk <;>
      (refine ⟨?_, ?_, ?_, ?_, ?_, ?_⟩ <;>
        simp [SdpSlotQueryChildren, KSUCCESS, SdpSlotQueryChildrenEnd,
          SdpDiskReleaseReference, SdpCreateDisk])
  · have hmedia' : MediaStatus = .success := (KSUCCESS_iff _).1 hmedia
    subst hmedia'
    subst hdma
    cases disk <;>
      (refine ⟨?_, ?_, ?_, ?_, ?_, ?_⟩ <;>
        simp [SdpSlotQueryChildren, KSUCCESS,
          SdpSlotQueryChildrenEnd, SdpDiskReleaseReference, SdpCreateDisk])

/-- Witness for C8 on a concrete slot: insertion pending, controller
initializes, media parameters report NoMedia. -/
theorem C8_witness :
    (⟨true, false, none⟩ : SD_SLOT).InsertionPending = true ∧
    KSUCCESS .success = true ∧
    (KSTATUS.noMedia = .noMedia ∨
      (KSUCCESS .noMedia = true ∧ KSTATUS.success = .noMedia)) ∧
    (SdpSlotQueryChildren ⟨true, false, none⟩ .success true .noMedia 1024
      512 .success .success .success).Status = .success ∧
    (SdpSlotQueryChildren ⟨true, false, none⟩ .success true .noMedia 1024
      512 .success .success .success).DiskFreed = true :=
  have h := C8_no_media_releases_new_disk ⟨true, false, none⟩ .success
    .noMedia 1024 512 .success .success .success (by decide) (by decide)
    (Or.inl rfl)
  ⟨by decide, by decide, Or.inl rfl, h.1, h.2.2.2.1⟩
